import Mathlib

/-!
Verification of the Syntroph multi-tenant schema-routing core.

This file embeds the tenant resolution and schema-routing logic of
`apps/api/core/utils.py` (SchemaManager, TenantSchemaContext) and
`apps/api/core/middleware.py` (TenantRoutingMiddleware,
TenantPermissionMiddleware) as executable Lean definitions, and proves
properties of that embedding.

Modelling conventions:
- The database catalog is a `DbState`: the list of existing schema names
  plus the session's `search_path` string.
- Python string operations used by the code (`split(',')[0]`, `strip`,
  `strip('"')`, `replace`, `startswith`) are modelled by recursive
  functions on `List Char` with Python semantics (in particular,
  `replace` replaces ALL occurrences, left to right, non-overlapping).
- Catalog I/O failure is modelled by a Boolean `ioFail` parameter on each
  SchemaManager operation: when true, the `cursor.execute` call inside
  the operation's `try` block raises, and the operation behaves as its
  `except` clause dictates.
- Django ORM lookups are modelled as searches over a `TenantDb` value.
-/

namespace Syntroph

/-! ### Python string primitives (on lists of characters) -/

/-- Characters of `s` strictly before the first occurrence of `c`;
the whole of `s` if `c` does not occur.  Models `s.split(c)[0]`. -/
def takeUntil (c : Char) : List Char → List Char
  | [] => []
  | x :: xs => if x = c then [] else x :: takeUntil c xs

/-- Remove the characters satisfying `p` from both ends.
Models Python `str.strip()` (with `p` = whitespace) and
`str.strip('"')` (with `p` = quote). -/
def stripL (p : Char → Bool) (l : List Char) : List Char :=
  ((l.dropWhile p).reverse.dropWhile p).reverse

/-- Fuel-driven worker for `replaceAllL`: structurally recursive on the
fuel so that it reduces inside the kernel.  One unit of fuel is spent
per character position examined; the list shrinks by at least one
character per step, so fuel `l.length` always suffices. -/
def replaceFuel (pat rep : List Char) : Nat → List Char → List Char
  | _, [] => []
  | 0, l => l
  | fuel + 1, c :: rest =>
    if !pat.isEmpty && pat.isPrefixOf (c :: rest) then
      rep ++ replaceFuel pat rep fuel (rest.drop (pat.length - 1))
    else
      c :: replaceFuel pat rep fuel rest

/-- Replace every occurrence of `pat` by `rep`, scanning left to right,
non-overlapping.  Models Python `str.replace(pat, rep)` for non-empty
`pat`. -/
def replaceAllL (pat rep : List Char) (l : List Char) : List Char :=
  replaceFuel pat rep l.length l

/-- Whether `pat` occurs as a contiguous substring of `l`
(Python `pat in s`). -/
def containsSub (pat : List Char) : List Char → Bool
  | [] => pat.isEmpty
  | c :: rest => pat.isPrefixOf (c :: rest) || containsSub pat rest

/-- Python `s.replace(pat, rep)` on strings. -/
def pyReplace (s pat rep : String) : String :=
  ⟨replaceAllL pat.data rep.data s.data⟩

/-- Python `s.startswith(pre)`. -/
def pyStartsWith (s pre : String) : Bool :=
  pre.data.isPrefixOf s.data

/-! ### The catalog state -/

/-- The state of the database visible to the schema-management layer:
the set of existing schemas (as a list of full names, including the
`tenant_` prefix) and the session's `search_path` setting (the raw
string the session would report for `SHOW search_path`). -/
structure DbState where
  schemas : List String
  searchPath : String
deriving Repr, DecidableEq

/-- Models `SchemaManager.SCHEMA_PREFIX` (the name is adjusted;
the value is the source's `'tenant_'`). -/
def schemaPfx : String := "tenant_"

/-- Models `SchemaManager.PUBLIC_SCHEMA`. -/
def PUBLIC_SCHEMA : String := "public"

/-! ### SchemaManager operations -/

/-- The DDL string built by `create_tenant_schema` via f-string
interpolation of the full schema name. -/
def create_schema_ddl (fullName : String) : String :=
  "CREATE SCHEMA IF NOT EXISTS \"" ++ fullName ++ "\""

/-- Result of `SchemaManager.create_tenant_schema`: the returned
Boolean, the catalog state afterwards, and the DDL statements the call
executed (the parameterised existence `SELECT` is not DDL and is not
recorded). -/
structure CreateResult where
  created : Bool
  db : DbState
  executed : List String
deriving Repr, DecidableEq

/-- Models `SchemaManager.create_tenant_schema(schema_name)` (with
`create_tables=False`, its default).  The Python body checks
`information_schema.schemata` for the full name, returns `False` if the
row exists, otherwise interpolates the full name into a
`CREATE SCHEMA IF NOT EXISTS "..."` statement, executes it and returns
`True`.  Any exception inside the `try` block is caught, logged, and
turned into a `False` return; `ioFail` makes the first cursor call
raise. -/
def create_tenant_schema (ioFail : Bool) (schema_name : String) (s : DbState) :
    CreateResult :=
  let full := schemaPfx ++ schema_name
  if ioFail then ⟨false, s, []⟩
  else if s.schemas.contains full then ⟨false, s, []⟩
  else ⟨true, { s with schemas := s.schemas ++ [full] }, [create_schema_ddl full]⟩

/-- Models `SchemaManager.drop_tenant_schema(schema_name, cascade)`.
The Python body executes `DROP SCHEMA IF EXISTS "..." CASCADE|RESTRICT`
and returns `True`; any exception is caught and turned into `False`.
The model carries no per-schema contents, so the `RESTRICT` failure on a
non-empty schema is not modelled; every claim below uses
`cascade = true`, for which `DROP ... IF EXISTS ... CASCADE` always
succeeds. -/
def drop_tenant_schema (ioFail : Bool) (schema_name : String)
    (_cascade : Bool) (s : DbState) : Bool × DbState :=
  let full := schemaPfx ++ schema_name
  if ioFail then (false, s)
  else (true, { s with schemas := s.schemas.filter (fun n => n != full) })

/-- Models `SchemaManager.schema_exists(schema_name)`: a parameterised
catalog lookup; any exception is caught and turned into `False`. -/
def schema_exists (ioFail : Bool) (schema_name : String) (s : DbState) : Bool :=
  if ioFail then false
  else s.schemas.contains (schemaPfx ++ schema_name)

/-- Models `SchemaManager.list_tenant_schemas()`: selects schema names
`LIKE 'tenant_%'` ordered by name, then applies Python
`row.replace('tenant_', '')` (replace-all) to each; any exception is
caught and turned into `[]`. -/
def list_tenant_schemas (ioFail : Bool) (s : DbState) : List String :=
  if ioFail then []
  else
    ((s.schemas.filter (fun n => pyStartsWith n schemaPfx)).mergeSort
        (fun a b => decide (a ≤ b))).map
      (fun n => pyReplace n schemaPfx "")

/-- The successful effect of `SchemaManager.set_search_path(schema_name)`:
compute the full name (the bare public schema for `'public'`, otherwise
prefix-extended) and execute `SET search_path TO "<full>", public`.
The model records the resulting session `search_path` verbatim as the
quoted first entry followed by `, public`. -/
def set_search_path_ok (schema_name : String) (s : DbState) : DbState :=
  let full := if schema_name = PUBLIC_SCHEMA then PUBLIC_SCHEMA
              else schemaPfx ++ schema_name
  { s with searchPath := "\"" ++ full ++ "\", public" }

/-- Models `SchemaManager.set_search_path(schema_name)` including its
failure semantics: an exception from `cursor.execute` is logged and
re-raised (`raise`), i.e. it propagates to the caller. -/
def set_search_path (ioFail : Bool) (schema_name : String) (s : DbState) :
    Except String DbState :=
  let full := if schema_name = PUBLIC_SCHEMA then PUBLIC_SCHEMA
              else schemaPfx ++ schema_name
  if ioFail then .error ("Error setting search_path to " ++ full)
  else .ok (set_search_path_ok schema_name s)

/-- The first entry of a `search_path` string, as the Python code
computes it: `search_path.split(',')[0].strip().strip('"')`. -/
def firstSearchPathEntry (path : String) : String :=
  ⟨stripL (fun c => c == '"')
     (stripL (fun c => c.isWhitespace) (takeUntil ',' path.data))⟩

/-- The successful body of `SchemaManager.get_current_schema()`: take
the first entry of the session search path, and return it with the
`tenant_` prefix removed (Python `replace`, i.e. removing ALL
occurrences of `tenant_`) when it starts with the prefix, else the
public sentinel. -/
def get_current_schema_ok (s : DbState) : String :=
  let first := firstSearchPathEntry s.searchPath
  if pyStartsWith first schemaPfx then pyReplace first schemaPfx ""
  else PUBLIC_SCHEMA

/-- Models `SchemaManager.get_current_schema()`: any exception is caught
and turned into the public sentinel. -/
def get_current_schema (ioFail : Bool) (s : DbState) : String :=
  if ioFail then PUBLIC_SCHEMA
  else get_current_schema_ok s

/-- Models `TenantSchemaContext` used as a context manager around a unit
of work `work`: `__enter__` records `original = get_current_schema()`
and calls `set_search_path(schema_name)`; `__exit__` calls
`set_search_path(original)` and returns `False`, so an exception raised
by `work` propagates unchanged.  `work` receives the catalog state and
returns its outcome (normal or exceptional) together with the state it
leaves behind.  Catalog I/O is taken to succeed here (the claims about
this wrapper concern the restoration protocol, not I/O failure). -/
def tenantSchemaContext (schema_name : String)
    (work : DbState → Except String Unit × DbState) (s : DbState) :
    Except String Unit × DbState :=
  let original := get_current_schema false s
  let s1 := set_search_path_ok schema_name s
  let res := work s1
  (res.1, set_search_path_ok original res.2)

/-! ### The tenant data model (global schema rows) -/

/-- Models `core.models.Tenant` as consulted by the middleware: the
primary key (a UUID, modelled as its canonical lowercase string form),
the unique `schema_name`, the unique nullable `domain`, and the
`is_active` flag. -/
structure Tenant where
  id : String
  schema_name : String
  domain : Option String
  is_active : Bool
deriving Repr, DecidableEq

/-- Models `core.models.TenantMembership` as consulted by the
middleware: foreign keys by id, the `is_active` flag, and `joined_at`
(modelled as a Nat timestamp; `TenantMembership.Meta.ordering` is
`['-joined_at']`, newest first). -/
structure Membership where
  userId : String
  tenantId : String
  isActive : Bool
  joinedAt : Nat
deriving Repr, DecidableEq

/-- The global-schema tables the middleware reads. -/
structure TenantDb where
  tenants : List Tenant
  memberships : List Membership
deriving Repr, DecidableEq

/-- The request signals `TenantRoutingMiddleware` consults: the path,
the two identification headers (absent = `none`), the effective host,
and the authenticated user id (`none` models an unauthenticated
request, i.e. `request.user.is_authenticated == False`). -/
structure Request where
  path : String
  tenantIdHeader : Option String
  tenantSchemaHeader : Option String
  host : String
  userId : Option String
deriving Repr, DecidableEq

/-- Models `Tenant.objects.get(id=...)` (primary-key lookup). -/
def find_by_id (db : TenantDb) (i : String) : Option Tenant :=
  db.tenants.find? (fun t => t.id == i)

/-- Models `Tenant.objects.get(schema_name=...)` (unique-field lookup). -/
def find_by_schema (db : TenantDb) (n : String) : Option Tenant :=
  db.tenants.find? (fun t => t.schema_name == n)

/-- Models `Tenant.objects.get(domain=host)`; a NULL `domain` never
matches a host string. -/
def find_by_domain (db : TenantDb) (h : String) : Option Tenant :=
  db.tenants.find? (fun t => t.domain == some h)

/-- Whether `c` is a hexadecimal digit. -/
def isHexDigit (c : Char) : Bool :=
  c.isDigit || ('a' ≤ c && c ≤ 'f') || ('A' ≤ c && c ≤ 'F')

/-- Whether `s` is in the canonical hyphenated UUID format
(8-4-4-4-12 hex digits). -/
def uuid_format_ok (s : String) : Bool :=
  s.data.length == 36 &&
  s.data.enum.all (fun p =>
    if p.1 == 8 || p.1 == 13 || p.1 == 18 || p.1 == 23 then p.2 == '-'
    else isHexDigit p.2)

/-- Models `uuid.UUID(value)` as used by the middleware: parse the
canonical hyphenated form (case-insensitively) or fail.  Tenant ids are
stored in canonical lowercase form, so a successful parse lowercases
the input.  (Python's `UUID` also accepts some exotic spellings — urn
prefixes, braces, unhyphenated hex — which the middleware's documented
header format does not use and which are not modelled.) -/
def parse_uuid (s : String) : Option String :=
  if uuid_format_ok s then some ⟨s.data.map Char.toLower⟩ else none

/-- Python truthiness of an optional header value (`if tenant_id:`):
present and non-empty. -/
def headerPresent (h : Option String) : Bool :=
  match h with
  | none => false
  | some v => !v.isEmpty

/-- Method 1 of `TenantRoutingMiddleware._identify_tenant`: the
`X-Tenant-ID` header, tried first as a UUID primary-key lookup; on a
parse failure or a missing row, the same value is retried as a
`schema_name` lookup. -/
def method1_token_header (req : Request) (db : TenantDb) : Option Tenant :=
  match req.tenantIdHeader with
  | none => none
  | some tid =>
    if tid.isEmpty then none
    else
      match parse_uuid tid with
      | some u =>
        match find_by_id db u with
        | some t => some t
        | none => find_by_schema db tid
      | none => find_by_schema db tid

/-- Method 2: the `X-Tenant-Schema` header, an exact `schema_name`
lookup. -/
def method2_schema_header (req : Request) (db : TenantDb) : Option Tenant :=
  match req.tenantSchemaHeader with
  | none => none
  | some ts => if ts.isEmpty then none else find_by_schema db ts

/-- Method 3: exact match of the request host against `domain`. -/
def method3_domain (req : Request) (db : TenantDb) : Option Tenant :=
  find_by_domain db req.host

/-- Method 4: if the host contains a dot, match its leftmost label
(`host.split('.')[0]`) against `schema_name`. -/
def method4_subdomain (req : Request) (db : TenantDb) : Option Tenant :=
  if req.host.data.contains '.' then
    find_by_schema db ⟨takeUntil '.' req.host.data⟩
  else none

/-- The first element of the user's active memberships ordered by the
model's default ordering `-joined_at` (newest first): the
most-recently-joined active membership, i.e.
`TenantMembership.objects.filter(user=..., is_active=True).first()`. -/
def most_recent_active_membership (db : TenantDb) (u : String) :
    Option Membership :=
  (db.memberships.filter (fun m => m.userId == u && m.isActive)).foldl
    (fun acc m =>
      match acc with
      | none => some m
      | some b => if b.joinedAt < m.joinedAt then some m else some b)
    none

/-- Method 5: for an authenticated caller, the tenant of the
most-recently-joined active membership — but only if that tenant is
itself active (`if membership and membership.tenant.is_active:`). -/
def method5_user_default (req : Request) (db : TenantDb) : Option Tenant :=
  match req.userId with
  | none => none
  | some u =>
    match most_recent_active_membership db u with
    | none => none
    | some m =>
      match find_by_id db m.tenantId with
      | none => none
      | some t => if t.is_active then some t else none

/-- Models `TenantRoutingMiddleware._identify_tenant`: the five
identification methods tried in order, each early-returning on the
first success, exactly as the Python function's sequence of
`return tenant` statements. -/
def identify_tenant (req : Request) (db : TenantDb) : Option Tenant :=
  match method1_token_header req db with
  | some t => some t
  | none =>
    match method2_schema_header req db with
    | some t => some t
    | none =>
      match method3_domain req db with
      | some t => some t
      | none =>
        match method4_subdomain req db with
        | some t => some t
        | none => method5_user_default req db

/-! ### The middleware request phase -/

/-- Models `TenantRoutingMiddleware.PUBLIC_PATHS`. -/
def PUBLIC_PATHS : List String :=
  ["/admin/", "/api/auth/", "/api/tenants/", "/api/users/register/",
   "/api/users/login/", "/api/docs/", "/api/schema/", "/health/",
   "/static/", "/media/"]

/-- Models `TenantRoutingMiddleware._is_public_path`. -/
def is_public_path (path : String) : Bool :=
  PUBLIC_PATHS.any (fun p => pyStartsWith path p)

/-- A structured JSON rejection response: HTTP status plus the
machine-checkable `error` field of the JSON body. -/
structure Response where
  status : Nat
  error : String
deriving Repr, DecidableEq

/-- Outcome of `TenantRoutingMiddleware.process_request`: the rejection
response if any, the tenant attached to the request (`request.tenant`),
the catalog state afterwards, and the ordered list of schema names
passed to `SchemaManager.set_search_path` during the call. -/
structure RoutingOutcome where
  response : Option Response
  tenant : Option Tenant
  db : DbState
  activeCalls : List String
deriving Repr, DecidableEq

/-- Models `TenantRoutingMiddleware.process_request`.  Public paths
switch to the public schema and attach no tenant; otherwise the tenant
is identified (400 on failure), its `is_active` flag checked (403 when
inactive), and only then is `set_search_path(tenant.schema_name)`
called.  The `set_search_path` call is modelled as succeeding (its
exception path returns a 500, which no claim here concerns). -/
def routing_process_request (req : Request) (db : TenantDb) (s : DbState) :
    RoutingOutcome :=
  if is_public_path req.path then
    { response := none, tenant := none,
      db := set_search_path_ok PUBLIC_SCHEMA s,
      activeCalls := [PUBLIC_SCHEMA] }
  else
    match identify_tenant req db with
    | none =>
      { response := some ⟨400, "Tenant not identified"⟩, tenant := none,
        db := s, activeCalls := [] }
    | some t =>
      if !t.is_active then
        { response := some ⟨403, "Tenant inactive"⟩, tenant := none,
          db := s, activeCalls := [] }
      else
        { response := none, tenant := some t,
          db := set_search_path_ok t.schema_name s,
          activeCalls := [t.schema_name] }

/-- Models `TenantPermissionMiddleware.process_request`: skipped when no
tenant is attached; 401 for an unauthenticated caller; 403 when the
caller has no active membership in the attached tenant. -/
def permission_process_request (req : Request) (tenant : Option Tenant)
    (db : TenantDb) : Option Response :=
  match tenant with
  | none => none
  | some t =>
    match req.userId with
    | none => some ⟨401, "Authentication required"⟩
    | some u =>
      if db.memberships.any
          (fun m => m.userId == u && m.tenantId == t.id && m.isActive) then
        none
      else some ⟨403, "Access denied"⟩

/-- Outcome of the request phase of the middleware chain. -/
structure PipelineOutcome where
  response : Option Response
  db : DbState
  activeCalls : List String
deriving Repr, DecidableEq

/-- The request phase of the configured middleware chain:
`TenantRoutingMiddleware.process_request` runs first, and
`TenantPermissionMiddleware.process_request` runs only when the routing
middleware did not already return a response (Django short-circuits the
inner middleware once an outer one responds). -/
def request_phase (req : Request) (db : TenantDb) (s : DbState) :
    PipelineOutcome :=
  let r := routing_process_request req db s
  match r.response with
  | some resp => ⟨some resp, r.db, r.activeCalls⟩
  | none =>
    match permission_process_request req r.tenant db with
    | some resp => ⟨some resp, r.db, r.activeCalls⟩
    | none => ⟨none, r.db, r.activeCalls⟩

/-! ### The safe-identifier charset of the claims -/

/-- A character of the safe identifier charset the claims describe:
lowercase alphanumeric or underscore. -/
def isSafeChar (c : Char) : Bool :=
  ('a' ≤ c && c ≤ 'z') || ('0' ≤ c && c ≤ '9') || c == '_'

/-- A valid namespace name in the sense of the claims: safe identifier
charset, within the database identifier length limit (63, the
`max_length` of `Tenant.schema_name`). -/
def isSafeIdentifier (name : String) : Bool :=
  name.data.all isSafeChar && name.data.length ≤ 63

/-! ### Concrete inputs used by witnesses and counterexamples -/

/-- A fresh session state: empty catalog, public search path. -/
def db0 : DbState := { schemas := [], searchPath := "public" }

/-- A session state bound to tenant schema `tenant_acme`, whose catalog
contains that schema. -/
def dbWithAcme : DbState :=
  { schemas := ["tenant_acme"], searchPath := "\"tenant_acme\", public" }

/-- An active tenant reachable via the `X-Tenant-Schema` header. -/
def acmeTenant : Tenant :=
  { id := "11111111-1111-1111-1111-111111111111", schema_name := "acme",
    domain := none, is_active := true }

/-- An inactive tenant. -/
def ghostTenant : Tenant :=
  { id := "22222222-2222-2222-2222-222222222222", schema_name := "ghost",
    domain := none, is_active := false }

/-- Tenant database holding one active and one inactive tenant. -/
def twoTenantDb : TenantDb :=
  { tenants := [acmeTenant, ghostTenant], memberships := [] }

/-- An unauthenticated request for a non-exempt path naming `acme` via
the schema header. -/
def unauthAcmeReq : Request :=
  { path := "/api/contacts/", tenantIdHeader := none,
    tenantSchemaHeader := some "acme", host := "localhost", userId := none }

/-- A request for a non-exempt path naming the inactive tenant `ghost`. -/
def ghostReq : Request :=
  { path := "/api/contacts/", tenantIdHeader := none,
    tenantSchemaHeader := some "ghost", host := "localhost", userId := none }

/-- A tenant whose `domain` matches host `acme.example.com` but whose
`schema_name` does not match its subdomain. -/
def domainTenant : Tenant :=
  { id := "33333333-3333-3333-3333-333333333333", schema_name := "other",
    domain := some "acme.example.com", is_active := true }

/-- A different tenant whose `schema_name` matches the subdomain `acme`. -/
def subdomainTenant : Tenant :=
  { id := "44444444-4444-4444-4444-444444444444", schema_name := "acme",
    domain := none, is_active := true }

/-- Tenant database where both the domain match and the subdomain
heuristic would apply to host `acme.example.com`, with distinct
tenants. -/
def domainVsSubDb : TenantDb :=
  { tenants := [subdomainTenant, domainTenant], memberships := [] }

/-- A headerless unauthenticated request from host `acme.example.com`. -/
def domainReq : Request :=
  { path := "/api/contacts/", tenantIdHeader := none,
    tenantSchemaHeader := none, host := "acme.example.com", userId := none }

/-- An inactive tenant for the authenticated-fallback scenario. -/
def fallbackTenant : Tenant :=
  { id := "t1", schema_name := "acme", domain := none, is_active := false }

/-- The single active membership of user `u1`, in `fallbackTenant`. -/
def fallbackMembership : Membership :=
  { userId := "u1", tenantId := "t1", isActive := true, joinedAt := 5 }

/-- Tenant database for the authenticated-fallback scenario. -/
def fallbackDb : TenantDb :=
  { tenants := [fallbackTenant], memberships := [fallbackMembership] }

/-- A signal-free request by authenticated user `u1`: no headers, and a
host that matches no domain and has no dot. -/
def fallbackReq : Request :=
  { path := "/api/contacts/", tenantIdHeader := none,
    tenantSchemaHeader := none, host := "localhost", userId := some "u1" }

/-- An active tenant and membership for the fallback witness. -/
def liveTenant : Tenant :=
  { id := "t2", schema_name := "live", domain := none, is_active := true }

/-- Active membership of user `u2` in `liveTenant`. -/
def liveMembership : Membership :=
  { userId := "u2", tenantId := "t2", isActive := true, joinedAt := 9 }

/-- Tenant database for the fallback witness. -/
def liveDb : TenantDb :=
  { tenants := [liveTenant], memberships := [liveMembership] }

/-- A signal-free request by authenticated user `u2`. -/
def liveReq : Request :=
  { path := "/api/contacts/", tenantIdHeader := none,
    tenantSchemaHeader := none, host := "localhost", userId := some "u2" }

/-- A name containing an identifier-breaking character (a double
quote), able to escape the DDL's quoted-identifier context. -/
def injName : String := "acme\" CASCADE; DROP SCHEMA \"public"

/-- A unit of work that raises. -/
def boomWork : DbState → Except String Unit × DbState :=
  fun st => (Except.error "boom", st)

/-! ### Helper lemmas about the string primitives -/

theorem isPrefixOf_self_append (l r : List Char) :
    l.isPrefixOf (l ++ r) = true := by
  simp [List.isPrefixOf_iff_prefix]

theorem takeUntil_append_cons (c : Char) (a b : List Char)
    (h : ∀ x ∈ a, x ≠ c) : takeUntil c (a ++ c :: b) = a := by
  induction a with
  | nil => simp [takeUntil]
  | cons x xs ih =>
    have hx : x ≠ c := h x (by simp)
    simp [takeUntil, hx, ih (fun y hy => h y (by simp [hy]))]

theorem dropWhile_cons_false (p : Char → Bool) (x : Char) (xs : List Char)
    (h : p x = false) : (x :: xs).dropWhile p = x :: xs := by
  simp [List.dropWhile_cons, h]

theorem dropWhile_all_false (p : Char → Bool) (l : List Char)
    (h : ∀ x ∈ l, p x = false) : l.dropWhile p = l := by
  cases l with
  | nil => rfl
  | cons x xs => exact dropWhile_cons_false p x xs (h x (by simp))

theorem stripL_all_false (p : Char → Bool) (l : List Char)
    (h : ∀ x ∈ l, p x = false) : stripL p l = l := by
  unfold stripL
  rw [dropWhile_all_false p l h,
    dropWhile_all_false p l.reverse (fun x hx => h x (List.mem_reverse.mp hx)),
    List.reverse_reverse]

theorem replaceFuel_nil (pat rep : List Char) (f : Nat) :
    replaceFuel pat rep f [] = [] := by
  cases f <;> rfl

theorem replaceFuel_congr (pat rep : List Char) :
    ∀ (f : Nat) (l : List Char) (f2 : Nat), l.length ≤ f → l.length ≤ f2 →
      replaceFuel pat rep f l = replaceFuel pat rep f2 l := by
  intro f
  induction f with
  | zero =>
    intro l f2 h _
    have hl : l = [] := List.length_eq_zero.mp (Nat.le_zero.mp h)
    subst hl
    rw [replaceFuel_nil, replaceFuel_nil]
  | succ f1 ih =>
    intro l f2 h h2
    cases l with
    | nil => rw [replaceFuel_nil, replaceFuel_nil]
    | cons c rest =>
      cases f2 with
      | zero => simp at h2
      | succ f2p =>
        simp only [List.length_cons, Nat.add_le_add_iff_right] at h h2
        by_cases hg : (!pat.isEmpty && pat.isPrefixOf (c :: rest)) = true
        · have e1 : replaceFuel pat rep (f1 + 1) (c :: rest)
              = rep ++ replaceFuel pat rep f1 (rest.drop (pat.length - 1)) := by
            simp [replaceFuel, hg]
          have e2 : replaceFuel pat rep (f2p + 1) (c :: rest)
              = rep ++ replaceFuel pat rep f2p (rest.drop (pat.length - 1)) := by
            simp [replaceFuel, hg]
          rw [e1, e2]
          congr 1
          have hlen : (rest.drop (pat.length - 1)).length ≤ rest.length := by
            rw [List.length_drop]
            omega
          exact ih _ f2p (le_trans hlen h) (le_trans hlen h2)
        · have hg2 : (!pat.isEmpty && pat.isPrefixOf (c :: rest)) = false :=
            Bool.not_eq_true _ |>.mp hg
          have e1 : replaceFuel pat rep (f1 + 1) (c :: rest)
              = c :: replaceFuel pat rep f1 rest := by
            simp [replaceFuel, hg2]
          have e2 : replaceFuel pat rep (f2p + 1) (c :: rest)
              = c :: replaceFuel pat rep f2p rest := by
            simp [replaceFuel, hg2]
          rw [e1, e2]
          congr 1
          exact ih rest f2p h h2

theorem replaceAllL_append (pat rep n : List Char) (hp : pat ≠ []) :
    replaceAllL pat rep (pat ++ n) = rep ++ replaceAllL pat rep n := by
  cases pat with
  | nil => exact absurd rfl hp
  | cons c cs =>
    have hpre : (c :: cs).isPrefixOf (c :: (cs ++ n)) = true := by
      have := isPrefixOf_self_append (c :: cs) n
      rwa [List.cons_append] at this
    have hdrop : (cs ++ n).drop ((c :: cs).length - 1) = n := by
      simp only [List.length_cons, Nat.add_sub_cancel]
      exact List.drop_left cs n
    unfold replaceAllL
    rw [List.cons_append]
    have e1 : replaceFuel (c :: cs) rep ((c :: (cs ++ n)).length) (c :: (cs ++ n))
        = rep ++ replaceFuel (c :: cs) rep (cs ++ n).length
            ((cs ++ n).drop ((c :: cs).length - 1)) := by
      simp [replaceFuel, hpre]
    rw [e1, hdrop]
    congr 1
    apply replaceFuel_congr
    · rw [List.length_append]
      omega
    · exact le_refl _

theorem replaceFuel_not_contains (pat rep : List Char) :
    ∀ (l : List Char) (f : Nat), containsSub pat l = false →
      replaceFuel pat rep f l = l := by
  intro l
  induction l with
  | nil => intro f _; exact replaceFuel_nil pat rep f
  | cons c rest ih =>
    intro f h
    rw [containsSub] at h
    simp only [Bool.or_eq_false_iff] at h
    cases f with
    | zero => rfl
    | succ f1 =>
      have hg2 : (!pat.isEmpty && pat.isPrefixOf (c :: rest)) = false := by
        simp [h.1]
      simp [replaceFuel, hg2, ih f1 h.2]

theorem replaceAllL_not_contains (pat rep l : List Char)
    (h : containsSub pat l = false) : replaceAllL pat rep l = l :=
  replaceFuel_not_contains pat rep l l.length h

theorem containsSub_nil_pat (l : List Char) : containsSub [] l = true := by
  cases l <;> simp [containsSub, List.isPrefixOf]

theorem containsSub_append_mid (pat x y : List Char) :
    containsSub pat (x ++ pat ++ y) = true := by
  induction x with
  | nil =>
    cases pat with
    | nil => simpa using containsSub_nil_pat y
    | cons c cs =>
      have := isPrefixOf_self_append (c :: cs) y
      rw [List.cons_append] at this
      simp [containsSub, this]
  | cons a as ih =>
    rw [List.append_assoc] at ih
    simp [containsSub, ih]

theorem opt_chain {α : Type} (a b : Option α) :
    (match a with | some t => some t | none => b) = a.orElse (fun _ => b) := by
  cases a <;> rfl

theorem stripL_quote_wrap (q : Char → Bool) (hq : q '"' = true)
    (mid : List Char) (h : ∀ x ∈ mid, q x = false) :
    stripL q ('"' :: (mid ++ ['"'])) = mid := by
  cases mid with
  | nil => simp [stripL, hq]
  | cons m ms =>
    have hm : q m = false := h m (by simp)
    have hrev : (('"' :: ((m :: ms) ++ ['"'])).dropWhile q)
        = (m :: ms) ++ ['"'] := by
      rw [List.dropWhile_cons]
      simp only [hq, if_true]
      rw [List.cons_append, List.dropWhile_cons]
      simp [hm]
    unfold stripL
    rw [hrev, List.reverse_append]
    have : (['"'] : List Char).reverse = ['"'] := rfl
    rw [this, List.singleton_append, List.dropWhile_cons]
    simp only [hq, if_true]
    rw [dropWhile_all_false q (m :: ms).reverse
      (fun x hx => h x (List.mem_reverse.mp hx))]
    exact List.reverse_reverse _

theorem safeChar_not_comma {c : Char} (h : isSafeChar c = true) : c ≠ ',' := by
  intro e
  subst e
  exact absurd h (by decide)

theorem safeChar_not_quote {c : Char} (h : isSafeChar c = true) :
    (c == '"') = false := by
  by_contra hb
  rw [Bool.not_eq_false, beq_iff_eq] at hb
  subst hb
  exact absurd h (by decide)

theorem safeChar_not_ws {c : Char} (h : isSafeChar c = true) :
    c.isWhitespace = false := by
  by_contra hb
  rw [Bool.not_eq_false] at hb
  simp [Char.isWhitespace] at hb
  rcases hb with ((e | e) | e) | e <;> (subst e; exact absurd h (by decide))

theorem schemaPfx_data : schemaPfx.data = ['t', 'e', 'n', 'a', 'n', 't', '_'] := rfl

theorem schemaPfx_chars_safe : ∀ x ∈ schemaPfx.data, isSafeChar x = true := by
  decide

theorem entry_chars (name : String)
    (hchars : ∀ x ∈ name.data, isSafeChar x = true) :
    ∀ x ∈ ('"' :: ((schemaPfx.data ++ name.data) ++ ['"'])),
      x = '"' ∨ isSafeChar x = true := by
  intro x hx
  rcases List.mem_cons.mp hx with e | hx2
  · exact Or.inl e
  rcases List.mem_append.mp hx2 with hx3 | e
  · rcases List.mem_append.mp hx3 with hm | hm
    · exact Or.inr (schemaPfx_chars_safe x hm)
    · exact Or.inr (hchars x hm)
  · exact Or.inl (by simpa using e)

theorem get_current_schema_false (s : DbState) :
    get_current_schema false s = get_current_schema_ok s := by
  simp [get_current_schema]

theorem get_after_set (name : String) (s : DbState)
    (hsafe : name.data.all isSafeChar = true)
    (hno : containsSub schemaPfx.data name.data = false) :
    get_current_schema false (set_search_path_ok name s) = name := by
  have hchars : ∀ x ∈ name.data, isSafeChar x = true := by
    simpa [List.all_eq_true] using hsafe
  by_cases hp : name = PUBLIC_SCHEMA
  · subst hp
    rw [get_current_schema_false]
    show get_current_schema_ok
      { s with searchPath := "\"public\", public" } = PUBLIC_SCHEMA
    simp only [get_current_schema_ok]
    decide
  · have hfull : set_search_path_ok name s =
        { s with searchPath := "\"" ++ (schemaPfx ++ name) ++ "\", public" } := by
      simp [set_search_path_ok, hp]
    have hdata : ("\"" ++ (schemaPfx ++ name) ++ "\", public").data
        = ('"' :: ((schemaPfx.data ++ name.data) ++ ['"']))
          ++ (',' :: (' ' :: "public".data)) := by
      simp [String.data_append]
    have h1 : takeUntil ','
        (("\"" ++ (schemaPfx ++ name) ++ "\", public").data)
        = '"' :: ((schemaPfx.data ++ name.data) ++ ['"']) := by
      rw [hdata]
      apply takeUntil_append_cons
      intro x hx
      rcases entry_chars name hchars x hx with e | hs
      · subst e; decide
      · exact safeChar_not_comma hs
    have h2 : stripL (fun c => c.isWhitespace)
        ('"' :: ((schemaPfx.data ++ name.data) ++ ['"']))
        = '"' :: ((schemaPfx.data ++ name.data) ++ ['"']) := by
      apply stripL_all_false
      intro x hx
      rcases entry_chars name hchars x hx with e | hs
      · subst e; decide
      · exact safeChar_not_ws hs
    have h3 : stripL (fun c => c == '"')
        ('"' :: ((schemaPfx.data ++ name.data) ++ ['"']))
        = schemaPfx.data ++ name.data := by
      apply stripL_quote_wrap _ (by decide)
      intro x hx
      rcases List.mem_append.mp hx with hm | hm
      · exact safeChar_not_quote (schemaPfx_chars_safe x hm)
      · exact safeChar_not_quote (hchars x hm)
    have hfirst : firstSearchPathEntry
        ("\"" ++ (schemaPfx ++ name) ++ "\", public")
        = ⟨schemaPfx.data ++ name.data⟩ := by
      unfold firstSearchPathEntry
      rw [h1, h2, h3]
    have hsw : pyStartsWith (⟨schemaPfx.data ++ name.data⟩ : String)
        schemaPfx = true := by
      unfold pyStartsWith
      exact isPrefixOf_self_append _ _
    have hrepl : pyReplace (⟨schemaPfx.data ++ name.data⟩ : String)
        schemaPfx "" = name := by
      unfold pyReplace
      apply String.ext
      show replaceAllL schemaPfx.data ("" : String).data
        (schemaPfx.data ++ name.data) = name.data
      rw [replaceAllL_append _ _ _ (by decide),
        replaceAllL_not_contains _ _ _ hno]
      rfl
    rw [hfull, get_current_schema_false]
    simp only [get_current_schema_ok]
    rw [hfirst, hsw, if_pos rfl, hrepl]

theorem get_public_after_set_public (s2 : DbState) :
    get_current_schema false (set_search_path_ok PUBLIC_SCHEMA s2)
      = PUBLIC_SCHEMA :=
  get_after_set PUBLIC_SCHEMA s2 (by decide) (by decide)

theorem identify_tenant_eq_chain (req : Request) (db : TenantDb) :
    identify_tenant req db =
      (method1_token_header req db).orElse fun _ =>
        (method2_schema_header req db).orElse fun _ =>
          (method3_domain req db).orElse fun _ =>
            (method4_subdomain req db).orElse fun _ =>
              method5_user_default req db := by
  unfold identify_tenant
  rcases method1_token_header req db with _ | t1
  · rcases method2_schema_header req db with _ | t2
    · rcases method3_domain req db with _ | t3
      · rcases method4_subdomain req db with _ | t4 <;> rfl
      · rfl
    · rfl
  · rfl

theorem contains_filter_ne (l : List String) (a : String) :
    (l.filter (fun x => x != a)).contains a = false := by
  induction l with
  | nil => rfl
  | cons x xs ih =>
    by_cases hx : x = a
    · subst hx
      simp [List.filter_cons, ih]
    · simp [List.filter_cons, hx, ih, bne_iff_ne]
      exact fun e => hx e.symm

/-! ### Claim theorems -/

/-- C2: `TenantSchemaContext` records the previously active schema
before switching and restores it on the error exit path: if the active
schema is `public` before entry and the wrapped work throws, the
exception propagates (the context manager's exit returns `False`) and
afterwards the active schema is again `public`. -/
theorem tenant_schema_context_restores :
    ∀ (name : String) (work : DbState → Except String Unit × DbState)
      (s : DbState) (e : String),
      get_current_schema false s = PUBLIC_SCHEMA →
      (work (set_search_path_ok name s)).1 = Except.error e →
      (tenantSchemaContext name work s).1 = Except.error e ∧
      get_current_schema false (tenantSchemaContext name work s).2
        = PUBLIC_SCHEMA := by
  intro name work s e hpub herr
  constructor
  · simpa [tenantSchemaContext] using herr
  · simp only [tenantSchemaContext, hpub]
    exact get_public_after_set_public _

/-- Witness for C2 at a concrete schema name, initial state and
throwing unit of work. -/
theorem tenant_schema_context_restores_witness :
    (tenantSchemaContext "acme" boomWork db0).1 = Except.error "boom" ∧
    get_current_schema false (tenantSchemaContext "acme" boomWork db0).2
      = PUBLIC_SCHEMA :=
  tenant_schema_context_restores "acme" boomWork db0 "boom" (by decide) rfl

/-- C3 counterexample: `"tenant_a"` is a valid namespace name
(lowercase alphanumeric/underscore, within the length limit), yet
`setActive("tenant_a")` followed by `getActive()` returns `"a"`, not
`"tenant_a"`, because `get_current_schema` strips EVERY occurrence of
the reserved prefix (Python `str.replace` replaces all occurrences). -/
theorem set_get_roundtrip_cex :
    isSafeIdentifier "tenant_a" = true ∧
    get_current_schema false (set_search_path_ok "tenant_a" db0) = "a" ∧
    get_current_schema false (set_search_path_ok "tenant_a" db0)
      ≠ "tenant_a" := by
  refine ⟨by decide, by decide, by decide⟩

/-- C3 (amended): for every valid namespace name that does not contain
the reserved prefix `tenant_` as a substring, `setActive(name)`
followed immediately by `getActive()` returns `name`; and `getActive`
returns the sentinel `public` whenever the first entry of the
resolution order is not tenant-prefixed. -/
theorem set_get_roundtrip :
    (∀ (name : String) (s : DbState),
      isSafeIdentifier name = true →
      containsSub schemaPfx.data name.data = false →
      get_current_schema false (set_search_path_ok name s) = name) ∧
    (∀ s : DbState,
      pyStartsWith (firstSearchPathEntry s.searchPath) schemaPfx = false →
      get_current_schema false s = PUBLIC_SCHEMA) := by
  constructor
  · intro name s hsafe hno
    have hall : name.data.all isSafeChar = true := by
      unfold isSafeIdentifier at hsafe
      exact (Bool.and_eq_true _ _ |>.mp hsafe).1
    exact get_after_set name s hall hno
  · intro s hsw
    rw [get_current_schema_false]
    unfold get_current_schema_ok
    simp [hsw]

/-- Witness for C3 at the concrete name `acme`. -/
theorem set_get_roundtrip_witness :
    isSafeIdentifier "acme" = true ∧
    containsSub schemaPfx.data ("acme" : String).data = false ∧
    get_current_schema false (set_search_path_ok "acme" db0) = "acme" :=
  ⟨by decide, by decide, set_get_roundtrip.1 "acme" db0 (by decide) (by decide)⟩

/-- C7: creating the same schema twice leaves exactly one catalog entry;
the first call returns true and the second returns false (the
"already exists" outcome) instead of raising. -/
theorem create_schema_idempotent :
    ∀ (name : String) (s : DbState),
      s.schemas.contains (schemaPfx ++ name) = false →
      (create_tenant_schema false name s).created = true ∧
      (create_tenant_schema false name
        (create_tenant_schema false name s).db).created = false ∧
      ((create_tenant_schema false name
        (create_tenant_schema false name s).db).db).schemas.count
          (schemaPfx ++ name) = 1 := by
  intro name s h
  have hmem : schemaPfx ++ name ∉ s.schemas := by
    intro hm
    have hb : s.schemas.contains (schemaPfx ++ name) = true :=
      List.elem_iff.mpr hm
    rw [h] at hb
    exact Bool.false_ne_true hb
  have h1 : create_tenant_schema false name s =
      ⟨true, { s with schemas := s.schemas ++ [schemaPfx ++ name] },
        [create_schema_ddl (schemaPfx ++ name)]⟩ := by
    unfold create_tenant_schema
    simp [h, hmem]
  have hc : ({ s with schemas := s.schemas ++ [schemaPfx ++ name] } :
      DbState).schemas.contains (schemaPfx ++ name) = true := by
    simp
  have h2 : create_tenant_schema false name
      { s with schemas := s.schemas ++ [schemaPfx ++ name] } =
      ⟨false, { s with schemas := s.schemas ++ [schemaPfx ++ name] }, []⟩ := by
    unfold create_tenant_schema
    simp [hc]
  have h0 : s.schemas.count (schemaPfx ++ name) = 0 := by
    rw [List.count_eq_zero]
    intro hmem
    have hcontains : s.schemas.contains (schemaPfx ++ name) = true :=
      List.elem_iff.mpr hmem
    rw [h] at hcontains
    exact Bool.false_ne_true hcontains
  rw [h1]
  simp only [h2]
  refine ⟨trivial, trivial, ?_⟩
  simp [List.count_append, h0]

/-- Witness for C7 starting from the empty catalog. -/
theorem create_schema_idempotent_witness :
    (create_tenant_schema false "acme" db0).created = true ∧
    (create_tenant_schema false "acme"
      (create_tenant_schema false "acme" db0).db).created = false ∧
    ((create_tenant_schema false "acme"
      (create_tenant_schema false "acme" db0).db).db).schemas.count
        (schemaPfx ++ "acme") = 1 :=
  create_schema_idempotent "acme" db0 (by decide)

/-- C10: `drop(name, cascade=true)` executes `DROP SCHEMA IF EXISTS`,
so it returns true whether or not the schema existed; dropping the same
name twice returns true both times, and the schema is gone afterwards. -/
theorem drop_returns_true_regardless :
    ∀ (s : DbState) (name : String),
      (drop_tenant_schema false name true s).1 = true ∧
      (drop_tenant_schema false name true
        (drop_tenant_schema false name true s).2).1 = true ∧
      schema_exists false name (drop_tenant_schema false name true s).2
        = false := by
  intro s name
  refine ⟨rfl, rfl, ?_⟩
  unfold drop_tenant_schema schema_exists
  simp only [if_neg (by simp : ¬False)]
  exact contains_filter_ne s.schemas (schemaPfx ++ name)

/-- C4: tenant identification is the fixed-precedence chain
token-header (identity token, then namespace-name reinterpretation),
namespace-name header, exact `external_domain` host match, subdomain
heuristic, authenticated fallback — the first success wins; in
particular, with both headers absent, a tenant matched by domain wins
over any tenant whose namespace name matches the subdomain. -/
theorem identify_tenant_precedence :
    (∀ (req : Request) (db : TenantDb),
      identify_tenant req db =
        (method1_token_header req db).orElse fun _ =>
          (method2_schema_header req db).orElse fun _ =>
            (method3_domain req db).orElse fun _ =>
              (method4_subdomain req db).orElse fun _ =>
                method5_user_default req db) ∧
    (∀ (req : Request) (db : TenantDb) (t : Tenant),
      req.tenantIdHeader = none →
      req.tenantSchemaHeader = none →
      find_by_domain db req.host = some t →
      identify_tenant req db = some t) := by
  constructor
  · exact identify_tenant_eq_chain
  · intro req db t h1 h2 h3
    rw [identify_tenant_eq_chain]
    simp [method1_token_header, method2_schema_header, method3_domain,
      h1, h2, h3, Option.orElse]

/-- Witness for C4: host `acme.example.com` resolves to the tenant
whose domain matches, not the distinct tenant whose namespace name
matches the subdomain `acme`. -/
theorem identify_tenant_precedence_witness :
    identify_tenant domainReq domainVsSubDb = some domainTenant ∧
    subdomainTenant.schema_name = "acme" ∧
    domainTenant ≠ subdomainTenant :=
  ⟨identify_tenant_precedence.2 domainReq domainVsSubDb domainTenant
      rfl rfl (by decide),
    rfl, by decide⟩

/-- C5: a non-exempt request resolving to an inactive tenant is
rejected with the structured 403 response by the routing middleware,
and no `set_search_path` call is made during the request phase. -/
theorem inactive_tenant_rejected_before_switch :
    ∀ (req : Request) (db : TenantDb) (s : DbState) (t : Tenant),
      is_public_path req.path = false →
      identify_tenant req db = some t →
      t.is_active = false →
      (request_phase req db s).response = some ⟨403, "Tenant inactive"⟩ ∧
      (request_phase req db s).activeCalls = [] := by
  intro req db s t hpub hid hact
  constructor <;>
    simp [request_phase, routing_process_request, hpub, hid, hact]

/-- Witness for C5: the inactive tenant `ghost`, named via the schema
header. -/
theorem inactive_tenant_rejected_before_switch_witness :
    (request_phase ghostReq twoTenantDb db0).response
      = some ⟨403, "Tenant inactive"⟩ ∧
    (request_phase ghostReq twoTenantDb db0).activeCalls = [] :=
  inactive_tenant_rejected_before_switch ghostReq twoTenantDb db0
    ghostTenant (by decide) (by decide) rfl

/-- C6 counterexample: for an authenticated caller with no other
signals, whose most-recently-joined active membership points at an
INACTIVE tenant, the resolver returns nothing — it does validate the
tenant's status itself (`if membership and membership.tenant.is_active`),
contrary to the claim that it returns the tenant and leaves validation
to the router. -/
theorem user_default_fallback_cex :
    fallbackReq.userId = some "u1" ∧
    most_recent_active_membership fallbackDb "u1" = some fallbackMembership ∧
    find_by_id fallbackDb fallbackMembership.tenantId = some fallbackTenant ∧
    fallbackTenant.is_active = false ∧
    identify_tenant fallbackReq fallbackDb = none := by
  refine ⟨rfl, by decide, by decide, rfl, by decide⟩

/-- C6 (amended): for an authenticated caller for whom steps 1-4 all
fail, the resolver returns the tenant of the most-recently-joined
active membership only when that tenant is itself active; when it is
inactive the resolver returns nothing (it does not consider earlier
memberships). -/
theorem user_default_fallback_requires_active_tenant :
    ∀ (req : Request) (db : TenantDb) (u : String) (m : Membership)
      (t : Tenant),
      req.userId = some u →
      method1_token_header req db = none →
      method2_schema_header req db = none →
      method3_domain req db = none →
      method4_subdomain req db = none →
      most_recent_active_membership db u = some m →
      find_by_id db m.tenantId = some t →
      identify_tenant req db = (if t.is_active then some t else none) := by
  intro req db u m t hu h1 h2 h3 h4 hm ht
  rw [identify_tenant_eq_chain, h1, h2, h3, h4]
  simp [Option.orElse, method5_user_default, hu, hm, ht]

/-- Witness for C6: an active fallback tenant is returned. -/
theorem user_default_fallback_requires_active_tenant_witness :
    identify_tenant liveReq liveDb = some liveTenant := by
  have h := user_default_fallback_requires_active_tenant liveReq liveDb
    "u2" liveMembership liveTenant rfl (by decide) (by decide) (by decide)
    (by decide) (by decide) (by decide)
  simpa using h

/-- C1 counterexample: an unauthenticated request for a non-exempt path
naming an active tenant is rejected (401, a structured response), but
only AFTER the routing middleware has already called
`set_search_path("acme")` — the rejection does not precede the
namespace switch. -/
theorem unauthenticated_rejection_after_switch_cex :
    is_public_path unauthAcmeReq.path = false ∧
    (request_phase unauthAcmeReq twoTenantDb db0).response
      = some ⟨401, "Authentication required"⟩ ∧
    (request_phase unauthAcmeReq twoTenantDb db0).activeCalls = ["acme"] := by
  refine ⟨by decide, by decide, by decide⟩

/-- C1 (amended): rejections issued by the routing middleware —
unresolved (400) and inactive (403) — are structured responses produced
before any namespace switch (no `set_search_path` call is made); but
when the routing middleware accepts the tenant, the namespace switch to
`tenant.schema_name` has already happened by the time the permission
middleware can reject with 401 (unauthenticated) or 403 (forbidden). -/
theorem routing_rejections_before_switch :
    ∀ (req : Request) (db : TenantDb) (s : DbState),
      is_public_path req.path = false →
      ((identify_tenant req db = none →
        (request_phase req db s).response
          = some ⟨400, "Tenant not identified"⟩ ∧
        (request_phase req db s).activeCalls = []) ∧
      (∀ t : Tenant, identify_tenant req db = some t → t.is_active = false →
        (request_phase req db s).response = some ⟨403, "Tenant inactive"⟩ ∧
        (request_phase req db s).activeCalls = []) ∧
      (∀ t : Tenant, identify_tenant req db = some t → t.is_active = true →
        (request_phase req db s).activeCalls = [t.schema_name])) := by
  intro req db s hpub
  refine ⟨?_, ?_, ?_⟩
  · intro hid
    constructor <;> simp [request_phase, routing_process_request, hpub, hid]
  · intro t hid hact
    constructor <;>
      simp [request_phase, routing_process_request, hpub, hid, hact]
  · intro t hid hact
    rcases hperm : permission_process_request req (some t) db with _ | resp <;>
      simp [request_phase, routing_process_request, hpub, hid, hact, hperm]

/-- Witness for C1: an unresolved non-exempt request is rejected with
the structured 400 response and no namespace switch. -/
theorem routing_rejections_before_switch_witness :
    (request_phase fallbackReq fallbackDb db0).response
      = some ⟨400, "Tenant not identified"⟩ ∧
    (request_phase fallbackReq fallbackDb db0).activeCalls = [] :=
  (routing_rejections_before_switch fallbackReq fallbackDb db0
    (by decide)).1 (by decide)

/-- C8 counterexample: for a name containing an identifier-breaking
double quote, `create_tenant_schema` does not fail loudly — it builds
the `CREATE SCHEMA` DDL by string interpolation, executes it (with the
raw value embedded in it), and reports success. -/
theorem create_injection_cex :
    isSafeIdentifier injName = false ∧
    (create_tenant_schema false injName db0).created = true ∧
    (create_tenant_schema false injName db0).executed
      = [create_schema_ddl (schemaPfx ++ injName)] ∧
    containsSub injName.data (create_schema_ddl (schemaPfx ++ injName)).data
      = true := by
  refine ⟨by decide, by decide, by decide, by decide⟩

/-- C8 (amended): `create(name)` performs no identifier validation: for
every name outside the safe charset (not already present in the
catalog), it interpolates the prefixed name into a double-quoted
`CREATE SCHEMA IF NOT EXISTS` statement and executes that DDL — the raw
value occurs verbatim inside the executed statement — returning true;
database errors would be caught and reported only as a false return,
never as an exception. -/
theorem create_executes_unvalidated_ddl :
    ∀ (name : String) (s : DbState),
      isSafeIdentifier name = false →
      s.schemas.contains (schemaPfx ++ name) = false →
      (create_tenant_schema false name s).created = true ∧
      (create_tenant_schema false name s).executed
        = [create_schema_ddl (schemaPfx ++ name)] ∧
      containsSub name.data (create_schema_ddl (schemaPfx ++ name)).data
        = true := by
  intro name s _ h
  have hmem : schemaPfx ++ name ∉ s.schemas := by
    intro hm
    have hb : s.schemas.contains (schemaPfx ++ name) = true :=
      List.elem_iff.mpr hm
    rw [h] at hb
    exact Bool.false_ne_true hb
  have h1 : create_tenant_schema false name s =
      ⟨true, { s with schemas := s.schemas ++ [schemaPfx ++ name] },
        [create_schema_ddl (schemaPfx ++ name)]⟩ := by
    unfold create_tenant_schema
    simp [h, hmem]
  rw [h1]
  refine ⟨rfl, rfl, ?_⟩
  have hdata : (create_schema_ddl (schemaPfx ++ name)).data
      = (("CREATE SCHEMA IF NOT EXISTS \"" : String).data ++ schemaPfx.data)
        ++ name.data ++ ("\"" : String).data := by
    simp [create_schema_ddl, String.data_append]
  rw [hdata]
  exact containsSub_append_mid name.data
    (("CREATE SCHEMA IF NOT EXISTS \"" : String).data ++ schemaPfx.data)
    (("\"" : String).data)

/-- Witness for C8 at the concrete injection-carrying name. -/
theorem create_executes_unvalidated_ddl_witness :
    (create_tenant_schema false injName db0).created = true ∧
    (create_tenant_schema false injName db0).executed
      = [create_schema_ddl (schemaPfx ++ injName)] ∧
    containsSub injName.data (create_schema_ddl (schemaPfx ++ injName)).data
      = true :=
  create_executes_unvalidated_ddl injName db0 (by decide) (by decide)

/-- C9 counterexample: catalog I/O failures in `exists`, `list` and
`getActive` are swallowed into results indistinguishable from normal
ones — on a catalog that contains `tenant_acme` and a session bound to
it, a failing `exists` reports false (the normal "absent" answer), a
failing `list` reports the same empty list a successful call reports on
an empty catalog, and a failing `getActive` reports the public
sentinel although the session is tenant-bound. -/
theorem catalog_failures_swallowed_cex :
    schema_exists false "acme" dbWithAcme = true ∧
    schema_exists true "acme" dbWithAcme = false ∧
    list_tenant_schemas true dbWithAcme = list_tenant_schemas false db0 ∧
    get_current_schema false dbWithAcme = "acme" ∧
    get_current_schema true dbWithAcme = PUBLIC_SCHEMA := by
  refine ⟨by decide, by decide, ?_, by decide, by decide⟩
  show ([] : List String) = list_tenant_schemas false db0
  simp [list_tenant_schemas, db0, List.mergeSort_nil]

/-- C9 (amended): `setActive` failures propagate as raised exceptions
and `create`'s "already exists" case is a normal false outcome; but
catalog I/O failures in `drop`, `exists`, `list` and `getActive` are
caught and mapped to the default results false, false, the empty list
and the public sentinel respectively — reported only to the log, not to
the caller. -/
theorem catalog_failure_semantics :
    ∀ (name : String) (c : Bool) (s : DbState),
      set_search_path true name s
        = Except.error ("Error setting search_path to "
            ++ (if name = PUBLIC_SCHEMA then PUBLIC_SCHEMA
                else schemaPfx ++ name)) ∧
      set_search_path false name s = Except.ok (set_search_path_ok name s) ∧
      schema_exists true name s = false ∧
      list_tenant_schemas true s = [] ∧
      get_current_schema true s = PUBLIC_SCHEMA ∧
      drop_tenant_schema true name c s = (false, s) ∧
      (s.schemas.contains (schemaPfx ++ name) = true →
        create_tenant_schema false name s = ⟨false, s, []⟩) := by
  intro name c s
  refine ⟨rfl, rfl, rfl, rfl, rfl, rfl, ?_⟩
  intro h
  have hm : schemaPfx ++ name ∈ s.schemas := List.elem_iff.mp h
  unfold create_tenant_schema
  simp [hm]

/-- Witness for C9 on a catalog holding `tenant_acme`. -/
theorem catalog_failure_semantics_witness :
    schema_exists true "acme" dbWithAcme = false ∧
    get_current_schema true dbWithAcme = PUBLIC_SCHEMA ∧
    create_tenant_schema false "acme" dbWithAcme = ⟨false, dbWithAcme, []⟩ :=
  ⟨(catalog_failure_semantics "acme" true dbWithAcme).2.2.1,
    (catalog_failure_semantics "acme" true dbWithAcme).2.2.2.2.1,
    (catalog_failure_semantics "acme" true dbWithAcme).2.2.2.2.2.2 (by decide)⟩

end Syntroph
